import Mathlib

/-!
Verification of the axis-role-driven selection and navigation engine of
`sidpy/viz/dataset_viz.py`.

The Python classes are shallowly embedded: the mutable per-visualizer
interaction state becomes an explicit record, every event handler becomes a
function from state to state, and a handler that can raise a Python exception
returns `Option` (with `none` marking the raise).  Machine integers are exact
(`ℤ`), and the float-valued rectangle geometry is modelled with exact
rationals (`ℚ`); all the properties below concern comparisons and integer
truncations of ratios of small integers, which the exact model reflects.
-/

/-- The axis-role enumeration (`sidpy.sid.dimension.DimensionType` members used
by `dataset_viz.py`). -/
inductive DimensionType where
  | spatial
  | reciprocal
  | spectral
  | temporal
  | unclassified
deriving DecidableEq, Repr

/-- Python `int()` applied to an exact numeric value: truncation toward zero. -/
def pyInt (q : ℚ) : ℤ := if 0 ≤ q then ⌊q⌋ else ⌈q⌉

/-- One entry of a selection tuple: a contiguous `slice(lo, hi)` or the whole
axis (`slice(None)`). -/
inductive Sel where
  | range (lo hi : ℤ)
  | full
deriving DecidableEq, Repr

/-- `shape[d]` as an integer (axis `d` of the dataset shape). -/
def axSize (shape : List ℕ) (d : ℕ) : ℤ := (shape.getD d 0 : ℤ)

/-- The interaction state of `SpectralImageVisualizer` (and, identically, of
`FourDimImageVisualizer`): cursor `x`, `y` and bins `bin_x`, `bin_y` are Python
ints; the ROI rectangle patch geometry (`self.rect`) is float valued; `image`
is the navigation image computed at construction (`self.image`). -/
structure SpecViz where
  x : ℤ
  y : ℤ
  bin_x : ℤ
  bin_y : ℤ
  rectW : ℚ
  rectH : ℚ
  rectX : ℚ
  rectY : ℚ
  image : List ℕ × (List ℕ → ℚ)

/-- State right after `SpectralImageVisualizer.__init__`: `x = y = 0`,
`bin_x = bin_y = 1`, rectangle patch of size `bin_x × bin_y` at `(0, 0)`. -/
def initImage : List ℕ × (List ℕ → ℚ) := ([], fun _ => 0)

/-- Concrete post-construction interaction state. -/
def initSpec : SpecViz :=
  { x := 0, y := 0, bin_x := 1, bin_y := 1,
    rectW := 1, rectH := 1, rectX := 0, rectY := 0, image := initImage }

/-- The cursor clamp performed at the top of `get_spectrum` (lines 560-563)
and of `get_image_4d` (lines 792-795): `if self.x > shape[d0] - bin_x:
self.x = shape[d0] - bin_x`, same for `y`.  It runs inside `_update`, hence at
the end of every event handler. -/
def specClamp (s0 s1 : ℤ) (st : SpecViz) : SpecViz :=
  { st with
    x := if s0 - st.bin_x < st.x then s0 - st.bin_x else st.x,
    y := if s1 - st.bin_y < st.y then s1 - st.bin_y else st.y }

/-- The selection loop of `SpectralImageVisualizer.get_spectrum`
(lines 566-577): a SPATIAL axis gets the x-window when its index equals
`image_dims[0]` and the y-window otherwise, a SPECTRAL axis gets
`slice(None)`, every other axis gets `slice(0, 1)`.  `dim` is the running
axis index. -/
def specSelectionAux (d0 : ℕ) (x bx y byy : ℤ) : ℕ → List DimensionType → List Sel
  | _, [] => []
  | dim, r :: rest =>
    (match r with
      | DimensionType.spatial =>
          if dim = d0 then Sel.range x (x + bx) else Sel.range y (y + byy)
      | DimensionType.spectral => Sel.full
      | _ => Sel.range 0 1) :: specSelectionAux d0 x bx y byy (dim + 1) rest

/-- The full selection computed by `get_spectrum`: clamp the cursor, then run
the selection loop over all axes. -/
def get_spectrum_sel (shape : List ℕ) (roles : List DimensionType) (d0 d1 : ℕ)
    (st : SpecViz) : List Sel :=
  specSelectionAux d0
    (specClamp (axSize shape d0) (axSize shape d1) st).x st.bin_x
    (specClamp (axSize shape d0) (axSize shape d1) st).y st.bin_y
    0 roles

/-- The selection as claim C1 reads it (stated from the words of the spec, for
comparison with `get_spectrum_sel`): the x-window goes on the first navigation
axis and the y-window on the second regardless of whether the axis role is
Spatial or Reciprocal; the spectral axis gets the full extent and every other
axis gets `slice(0, 1)`. -/
def claimedSpectrumSelAux (d0 d1 : ℕ) (x bx y byy : ℤ) : ℕ → List DimensionType → List Sel
  | _, [] => []
  | dim, r :: rest =>
    (if dim = d0 then Sel.range x (x + bx)
     else if dim = d1 then Sel.range y (y + byy)
     else if r = DimensionType.spectral then Sel.full
     else Sel.range 0 1) :: claimedSpectrumSelAux d0 d1 x bx y byy (dim + 1) rest

/-- The claim C1 reading of the full `get_spectrum` selection (same clamp, but
windows assigned by navigation-axis index alone). -/
def claimedSpectrumSel (shape : List ℕ) (roles : List DimensionType) (d0 d1 : ℕ)
    (st : SpecViz) : List Sel :=
  claimedSpectrumSelAux d0 d1
    (specClamp (axSize shape d0) (axSize shape d1) st).x st.bin_x
    (specClamp (axSize shape d0) (axSize shape d1) st).y st.bin_y
    0 roles

/-- The argument forms of `set_bin(bin_xy)` that the claims quantify over: a
numeric scalar, a one-element list, a two-element list, and a pair passed as a
tuple. -/
inductive BinInput where
  | scalar (q : ℚ)
  | list1 (q : ℚ)
  | list2 (q1 q2 : ℚ)
  | tuple2 (q1 q2 : ℚ)

/-- Body of `set_bin` (lines 528-555 of `SpectralImageVisualizer`, identical
at lines 760-787 of `FourDimImageVisualizer`) after the argument has been
turned into integer bins `bx0`, `by0`.  `s0`, `s1` are
`shape[image_dims[0]]`, `shape[image_dims[1]]`; `u0`, `u1` are the literal
`shape[0]`, `shape[1]` used by the cursor clamp at lines 549 and 551.
`none` models a raised `ZeroDivisionError`: line 546 divides by the old bins,
lines 553-554 divide by the new bins.  The handler ends with `self._update()`,
whose `get_spectrum` call re-clamps the cursor (`specClamp`). -/
def set_bin_core (s0 s1 u0 u1 : ℤ) (bx0 by0 : ℤ) (st : SpecViz) : Option SpecViz :=
  let old_bx := st.bin_x
  let old_by := st.bin_y
  let bx := if s0 < bx0 then s0 else bx0
  let byy := if s1 < by0 then s1 else by0
  if old_bx = 0 ∨ old_by = 0 then none
  else
    let rw2 := st.rectW * (bx : ℚ) / (old_bx : ℚ)
    let rh2 := st.rectH * (byy : ℚ) / (old_by : ℚ)
    let nx := if s0 < st.x + bx then u0 - bx else st.x
    let ny := if s1 < st.y + byy then u1 - byy else st.y
    if bx = 0 ∨ byy = 0 then none
    else
      some (specClamp s0 s1
        { st with x := nx, y := ny, bin_x := bx, bin_y := byy,
                  rectW := rw2, rectH := rh2,
                  rectX := (nx : ℚ) * rw2 / (bx : ℚ),
                  rectY := (ny : ℚ) * rh2 / (byy : ℚ) })

/-- `set_bin(bin_xy)`: a list uses `int(bin_xy[0])`, `int(bin_xy[1])` (raising
`IndexError` on a one-element list), anything else goes through `int(bin_xy)`
(raising `TypeError` on a tuple). -/
def set_bin (shape : List ℕ) (d0 d1 : ℕ) (inp : BinInput) (st : SpecViz) : Option SpecViz :=
  match inp with
  | BinInput.tuple2 _ _ => none
  | BinInput.list1 _ => none
  | BinInput.scalar q =>
      set_bin_core (axSize shape d0) (axSize shape d1) (axSize shape 0) (axSize shape 1)
        (pyInt q) (pyInt q) st
  | BinInput.list2 a b =>
      set_bin_core (axSize shape d0) (axSize shape d1) (axSize shape 0) (axSize shape 1)
        (pyInt a) (pyInt b) st

/-- `_onclick` (lines 583-604; identical at lines 815-836): the constructor
fixes `self.rectangle = [0, size_x, 0, size_y]` and never mutates it, so the
rectangle-relative coordinates are `int(event.xdata) - 0` and
`int(event.ydata) - 0`.  A click with both coordinates in
`[0, size]` (boundary included) maps through the per-bin pixel size
`rect.get_width() / bin_x` and is then clamped; other clicks skip the update.
`self._update()` runs unconditionally at line 604, re-clamping the cursor.
`none` models `ZeroDivisionError` from the divisions at lines 594-595 when a
bin or a rectangle dimension is zero. -/
def onclick (shape : List ℕ) (d0 d1 : ℕ) (inaxes : Bool) (xdata ydata : ℚ)
    (st : SpecViz) : Option SpecViz :=
  let s0 := axSize shape d0
  let s1 := axSize shape d1
  if inaxes then
    let xr := pyInt xdata
    let yr := pyInt ydata
    if 0 ≤ xr ∧ 0 ≤ yr then
      if xr ≤ s0 ∧ yr ≤ s1 then
        if st.bin_x = 0 ∨ st.rectW = 0 ∨ st.bin_y = 0 ∨ st.rectH = 0 then none
        else
          let nx0 := pyInt ((xr : ℚ) / (st.rectW / (st.bin_x : ℚ)))
          let ny0 := pyInt ((yr : ℚ) / (st.rectH / (st.bin_y : ℚ)))
          let nx := if s0 < nx0 + st.bin_x then s0 - st.bin_x else nx0
          let ny := if s1 < ny0 + st.bin_y then s1 - st.bin_y else ny0
          some (specClamp s0 s1
            { st with x := nx, y := ny,
                      rectX := (nx : ℚ) * st.rectW / (st.bin_x : ℚ),
                      rectY := (ny : ℚ) * st.rectH / (st.bin_y : ℚ) })
      else some (specClamp s0 s1 st)
    else some (specClamp s0 s1 st)
  else some (specClamp s0 s1 st)

/-- The interaction-state invariant named by claim C2. -/
def stateInvariant (s0 s1 : ℤ) (st : SpecViz) : Prop :=
  1 ≤ st.bin_x ∧ 1 ≤ st.bin_y ∧ st.x + st.bin_x ≤ s0 ∧ st.y + st.bin_y ≤ s1

/-- The standalone cursor clamp rule of the Selection Builder: if
`cursor + bin > axis_length` then `cursor := axis_length - bin`. -/
def clampCursor (c b L : ℤ) : ℤ := if L < c + b then L - b else c

/-- Modelled from the spec: `sidpy.sid.dataset.Dataset.__len__` is not under
`src/`; the stack-axis inference rule of the spec reads "(b) if the array has
exactly 3 axes total, the one remaining axis not classified as image", so the
`len(dset)` test at line 277 of `ImageStackVisualizer.__init__` is modelled as
the number of axes of the dataset. -/
def lenDset (shape : List ℕ) : ℕ := shape.length

/-- The axis-classification loop of `ImageStackVisualizer.__init__`
(lines 273-281): SPATIAL or RECIPROCAL axes become image axes; otherwise an
axis tagged TEMPORAL — or any non-image axis when `len(dset) == 3` — becomes
the stack axis (a later qualifying axis overwrites an earlier one); remaining
axes are fixed at `slice(0, 1)`.  Returns (image axis indices, stack axis),
with the stack axis initialised to `-1`. -/
def stackClassifyAux (lenD : ℕ) : ℕ → List DimensionType → List ℕ → ℤ → List ℕ × ℤ
  | _, [], imgs, stk => (imgs, stk)
  | dim, r :: rest, imgs, stk =>
    if r = DimensionType.spatial ∨ r = DimensionType.reciprocal then
      stackClassifyAux lenD (dim + 1) rest (imgs ++ [dim]) stk
    else if r = DimensionType.temporal ∨ lenD = 3 then
      stackClassifyAux lenD (dim + 1) rest imgs (dim : ℤ)
    else stackClassifyAux lenD (dim + 1) rest imgs stk

/-- Construction of `ImageStackVisualizer` (lines 267-287): fails when the
dataset has fewer than three axes, when the image-axis count differs from two,
or when no stack axis was inferred; otherwise returns the classification. -/
def imageStackConstruct (shape : List ℕ) (roles : List DimensionType) :
    Except String (List ℕ × ℤ) :=
  if shape.length < 3 then
    Except.error "dataset must have at least three dimensions"
  else
    let ic := stackClassifyAux (lenDset shape) 0 roles [] (-1)
    if ic.1.length ≠ 2 then
      Except.error "We need two dimensions with dimension_type spatial to plot an image"
    else if ic.2 < 0 then
      Except.error "We need one dimensions with dimension_type stack time or frame"
    else Except.ok ic

/-- The per-frame state of `ImageStackVisualizer`: current frame index
`self.ind` and the stack-axis entry of `self.selection`. -/
structure StackState where
  ind : ℤ
  sel : ℤ × ℤ
deriving DecidableEq, Repr

/-- `_update(frame)` (lines 404-408): sets `self.ind = frame` and
`selection[stack_dim] = slice(frame, frame + 1)`. -/
def stack_update (frame : ℤ) (st : StackState) : StackState :=
  { st with ind := frame, sel := (frame, frame + 1) }

/-- Toggling the average button on (`_average_slices`, lines 383-392): the
mean image is drawn but `self.ind` and `self.selection` are left untouched. -/
def average_on (st : StackState) : StackState := st

/-- Toggling the average button off (`_average_slices`, lines 393-395):
`self.ind = self.ind % self.number_of_slices` followed by
`self._update(self.ind)`. -/
def average_off (n : ℤ) (st : StackState) : StackState :=
  stack_update (st.ind % n) st

/-- `_onscroll` (lines 397-402): the slider value moves by `+1` (up) or `-1`
(down) modulo the stack length, and `self.ind` follows it. -/
def onscroll (n : ℤ) (up : Bool) (v : ℤ) : ℤ :=
  match up with
  | true => (v + 1) % n
  | false => (v - 1) % n

/-- The scan-axis discovery loop of `FourDimImageVisualizer.__init__`
(lines 670-675): the first SPATIAL axis found fills `scan_y`, the second
fills `scan_x`; caller overrides arrive as the initial values. -/
def scanLoop : ℕ → List DimensionType → Option ℕ → Option ℕ → Option ℕ × Option ℕ
  | _, [], sy, sx => (sy, sx)
  | dim, r :: rest, sy, sx =>
    if r = DimensionType.spatial then
      match sy with
      | none => scanLoop (dim + 1) rest (some dim) sx
      | some a =>
        match sx with
        | none => scanLoop (dim + 1) rest (some a) (some dim)
        | some b => scanLoop (dim + 1) rest (some a) (some b)
    else scanLoop (dim + 1) rest sy sx

/-- The full 4D-mode axis inference (lines 665-694): scan axes from the
discovery loop (defaulting to `scan_y = 0`, `scan_x = 1` when either is still
missing), then `image_y` is the first of `range(4)` outside the scan axes and
`image_x` the first outside `image_y` and the scan axes.  Returns
`((scan_y, scan_x), (image_x, image_y))`. -/
def fourDInference (roles : List DimensionType)
    (scan_x0 scan_y0 image_x0 image_y0 : Option ℕ) :
    (ℕ × ℕ) × (Option ℕ × Option ℕ) :=
  let p := scanLoop 0 roles scan_y0 scan_x0
  let sy_sx : ℕ × ℕ :=
    match p with
    | (some a, some b) => (a, b)
    | _ => (0, 1)
  let sy := sy_sx.1
  let sx := sy_sx.2
  let iy :=
    match image_y0 with
    | some i => some i
    | none => (List.range 4).find? (fun d => !(d == sx || d == sy))
  let ix :=
    match image_x0 with
    | some i => some i
    | none => (List.range 4).find? (fun d => !(some d == iy || d == sx || d == sy))
  ((sy, sx), (ix, iy))

/-- `numpy`-style squeeze of a shape: all length-1 axes removed. -/
def squeezeShape (s : List ℕ) : List ℕ := s.filter (fun n => n != 1)

/-- Index translation for `squeeze`: re-insert index 0 at every squeezed
(length-1) axis position. -/
def unsqueezeIdx : List ℕ → List ℕ → List ℕ
  | [], _ => []
  | n :: rest, idx =>
    if n = 1 then 0 :: unsqueezeIdx rest idx
    else
      match idx with
      | [] => 0 :: unsqueezeIdx rest []
      | i :: irest => i :: unsqueezeIdx rest irest

/-- The data of `array.mean(axis = k)`: the axis `k` is averaged away, so the
value at `idx` (an index into the reduced shape) is the mean over the removed
coordinate. -/
def meanAxisData (shape : List ℕ) (data : List ℕ → ℚ) (k : ℕ) : List ℕ → ℚ :=
  fun idx =>
    (∑ j ∈ Finset.range (shape.getD k 1), data (idx.insertIdx k j)) / (shape.getD k 1 : ℚ)

/-- The mean of the full array over the spectral axis, as spec and claim C4
describe the navigation image (stated from the words of the spec, for comparison
with `navImage`): shape with the spectral axis removed, values averaged over
it. -/
def meanSpectralImage (shape : List ℕ) (data : List ℕ → ℚ) (specDim : ℕ) :
    List ℕ × (List ℕ → ℚ) :=
  (shape.eraseIdx specDim, meanAxisData shape data specDim)

/-- The navigation image computed by `SpectralImageVisualizer.__init__`
(lines 485-487): `self.image = dset.mean(axis=spectral_dims[0])`, overwritten
by `self.image = dset.squeeze()` whenever any axis has length 1. -/
def navImage (shape : List ℕ) (data : List ℕ → ℚ) (specDim : ℕ) :
    List ℕ × (List ℕ → ℚ) :=
  if 1 ∈ shape then (squeezeShape shape, fun idx => data (unsqueezeIdx shape idx))
  else meanSpectralImage shape data specDim

/-- Concrete probe array for the counterexamples: the value at an index is
its coordinate on axis 2. -/
def specProbeData : List ℕ → ℚ := fun idx => ((idx.getD 2 0 : ℕ) : ℚ)

theorem pyInt_intCast (k : ℤ) : pyInt (k : ℚ) = k := by
  unfold pyInt
  split_ifs with h
  · exact Int.floor_intCast k
  · exact Int.ceil_intCast k

theorem specClamp_bin_x (s0 s1 : ℤ) (st : SpecViz) :
    (specClamp s0 s1 st).bin_x = st.bin_x := rfl

theorem specClamp_bin_y (s0 s1 : ℤ) (st : SpecViz) :
    (specClamp s0 s1 st).bin_y = st.bin_y := rfl

theorem specClamp_image (s0 s1 : ℤ) (st : SpecViz) :
    (specClamp s0 s1 st).image = st.image := rfl

theorem specClamp_x_le (s0 s1 : ℤ) (st : SpecViz) :
    (specClamp s0 s1 st).x + st.bin_x ≤ s0 ∨ (specClamp s0 s1 st).x = st.x := by
  unfold specClamp
  dsimp only
  split_ifs with h <;> omega

theorem specClamp_x_bound (s0 s1 : ℤ) (st : SpecViz) :
    (specClamp s0 s1 st).x ≤ s0 - st.bin_x := by
  unfold specClamp
  dsimp only
  split_ifs with h <;> omega

theorem specClamp_y_bound (s0 s1 : ℤ) (st : SpecViz) :
    (specClamp s0 s1 st).y ≤ s1 - st.bin_y := by
  unfold specClamp
  dsimp only
  split_ifs with h <;> omega

theorem specClamp_eq_self (s0 s1 : ℤ) (st : SpecViz)
    (hx : st.x ≤ s0 - st.bin_x) (hy : st.y ≤ s1 - st.bin_y) :
    specClamp s0 s1 st = st := by
  unfold specClamp
  rw [if_neg (by omega), if_neg (by omega)]

/-- Claim C9: the cursor clamp rule `if cursor + bin > axis_length then
cursor := axis_length - bin` is idempotent for every integer triple
(cursor, bin, axis_length). -/
theorem C9_clamp_idempotent (c b L : ℤ) :
    clampCursor (clampCursor c b L) b L = clampCursor c b L := by
  unfold clampCursor
  split_ifs <;> omega

/-- Claim C7: from any frame index `f` with `0 ≤ f < n` and stack length
`n > 1`, `scroll(down)` followed by `scroll(up)` returns the frame index to
`f`; the steps are −1 and +1 modulo `n` with wrap-around. -/
theorem C7_scroll_roundtrip (n f : ℤ) (hn : 1 < n) (h0 : 0 ≤ f) (hf : f < n) :
    onscroll n true (onscroll n false f) = f := by
  show ((f - 1) % n + 1) % n = f
  have h1 : (1 : ℤ) % n = 1 := Int.emod_eq_of_lt (by omega) (by omega)
  calc ((f - 1) % n + 1) % n
      = ((f - 1) % n + 1 % n) % n := by rw [h1]
    _ = (f - 1 + 1) % n := (Int.add_emod _ _ _).symm
    _ = f % n := by ring_nf
    _ = f := Int.emod_eq_of_lt h0 hf

theorem C7_scroll_roundtrip_witness : onscroll 3 true (onscroll 3 false 2) = 2 :=
  C7_scroll_roundtrip 3 2 (by decide) (by decide) (by decide)

/-- Claim C8: a 4-axis dataset with roles
[Spatial, Unclassified, Spatial, Unclassified] and no caller overrides infers
`scan_y = 0`, `scan_x = 2` (first two Spatial axes in discovery order, first
found assigned to `scan_y`), and the 4D-slice axes are 1 and 3
(`image_y = 1`, `image_x = 3`, so the slice-axis set is exactly 1 and 3). -/
theorem C8_fourD_inference :
    fourDInference
      [DimensionType.spatial, DimensionType.unclassified,
        DimensionType.spatial, DimensionType.unclassified]
      none none none none = ((0, 2), (some 3, some 1)) := by decide

/-- Claim C3 (spec-modelled `len(dset)`): every 3-axis dataset with roles
[Spatial, Spatial, Unclassified] constructs an image stack successfully,
inferring axis 2 as the stack axis (with image axes 0 and 1). -/
theorem C3_stack_inference (shape : List ℕ) (h : shape.length = 3) :
    imageStackConstruct shape
      [DimensionType.spatial, DimensionType.spatial, DimensionType.unclassified]
      = Except.ok ([0, 1], 2) := by
  unfold imageStackConstruct lenDset
  rw [h]
  rfl

theorem C3_stack_inference_witness :
    imageStackConstruct [4, 5, 6]
      [DimensionType.spatial, DimensionType.spatial, DimensionType.unclassified]
      = Except.ok ([0, 1], 2) :=
  C3_stack_inference [4, 5, 6] (by decide)

/-- Claim C5 fails on the code: the frame index `3` can be held with a stack
of length 3 (the range of the frame slider goes up to `number_of_slices`
inclusive), and toggling average on and then off yields frame index
`3 % 3 = 0`, not the held index 3. -/
theorem C5_counterexample :
    (average_off 3 (average_on { ind := 3, sel := (3, 4) })).ind = 0 ∧ (0 : ℤ) ≠ 3 := by
  decide

/-- Claim C5 amended: for every frame index in `[0, stack_length)`, toggling
average on and then off with no frame change in between restores exactly that
frame index and sets the stack-axis selection to `[ind, ind + 1)`; a held
index equal to the stack length (reachable through the slider) comes back as
`0` instead. -/
theorem C5_average_roundtrip (n : ℤ) (st : StackState)
    (h0 : 0 ≤ st.ind) (h1 : st.ind < n) :
    average_off n (average_on st) = { ind := st.ind, sel := (st.ind, st.ind + 1) } := by
  unfold average_off average_on stack_update
  rw [Int.emod_eq_of_lt h0 h1]

theorem C5_average_roundtrip_witness :
    average_off 4 (average_on { ind := 2, sel := (2, 3) })
      = { ind := 2, sel := (2, 3) } :=
  C5_average_roundtrip 4 { ind := 2, sel := (2, 3) } (by decide) (by decide)

/-- Claim C1 fails on the code: in a valid spectral-image dataset whose first
navigation axis has role Reciprocal, `get_spectrum` gives that axis the fixed
range `[0, 1)` instead of the claimed x-window `[cursor, cursor + bin)`. -/
theorem C1_counterexample :
    get_spectrum_sel [4, 5, 6]
        [DimensionType.reciprocal, DimensionType.spatial, DimensionType.spectral]
        0 1 { initSpec with x := 1, y := 2 }
      ≠ claimedSpectrumSel [4, 5, 6]
        [DimensionType.reciprocal, DimensionType.spatial, DimensionType.spectral]
        0 1 { initSpec with x := 1, y := 2 } := by
  decide

theorem specSelectionAux_getD (d0 : ℕ) (x bx y byy : ℤ) :
    ∀ (roles : List DimensionType) (k i : ℕ), i < roles.length →
      (specSelectionAux d0 x bx y byy k roles).getD i (Sel.range 0 1) =
        match roles.getD i DimensionType.unclassified with
        | DimensionType.spatial =>
            if k + i = d0 then Sel.range x (x + bx) else Sel.range y (y + byy)
        | DimensionType.spectral => Sel.full
        | _ => Sel.range 0 1 := by
  intro roles
  induction roles with
  | nil => intro k i h; simp at h
  | cons r rest ih =>
    intro k i h
    cases i with
    | zero =>
      cases r <;> simp [specSelectionAux, List.getD]
    | succ i =>
      have hi : i < rest.length := by simpa using h
      have step := ih (k + 1) i hi
      have harith : k + 1 + i = k + (i + 1) := by omega
      rw [harith] at step
      simpa [specSelectionAux, List.getD] using step

/-- Claim C1 amended: in spectral-image mode, for every dataset, axis-role
list and interaction state, the selection built by `get_spectrum` assigns the
x-window `[x, x + bin_x)` (with the clamped cursor) to an axis exactly when
its role is Spatial and its index is the first image axis, the y-window to
every other Spatial axis, the full extent to a Spectral axis, and `[0, 1)` to
every other axis — including a navigation axis whose role is Reciprocal. -/
theorem C1_selection_by_role (shape : List ℕ) (roles : List DimensionType)
    (d0 d1 : ℕ) (st : SpecViz) (i : ℕ) (h : i < roles.length) :
    (get_spectrum_sel shape roles d0 d1 st).getD i (Sel.range 0 1) =
      match roles.getD i DimensionType.unclassified with
      | DimensionType.spatial =>
          if i = d0 then
            Sel.range (specClamp (axSize shape d0) (axSize shape d1) st).x
              ((specClamp (axSize shape d0) (axSize shape d1) st).x + st.bin_x)
          else
            Sel.range (specClamp (axSize shape d0) (axSize shape d1) st).y
              ((specClamp (axSize shape d0) (axSize shape d1) st).y + st.bin_y)
      | DimensionType.spectral => Sel.full
      | _ => Sel.range 0 1 := by
  have step := specSelectionAux_getD d0
    (specClamp (axSize shape d0) (axSize shape d1) st).x st.bin_x
    (specClamp (axSize shape d0) (axSize shape d1) st).y st.bin_y
    roles 0 i h
  simpa [get_spectrum_sel] using step

theorem C1_selection_by_role_witness :
    (get_spectrum_sel [4, 5, 6]
        [DimensionType.reciprocal, DimensionType.spatial, DimensionType.spectral]
        0 1 initSpec).getD 0 (Sel.range 0 1) = Sel.range 0 1 :=
  C1_selection_by_role [4, 5, 6]
    [DimensionType.reciprocal, DimensionType.spatial, DimensionType.spectral]
    0 1 initSpec 0 (by decide)

/-- Claim C4 fails on the code: for the valid spectral-image dataset of shape
(1, 2, 2) with spectral axis 2, `__init__` overwrites the spectral mean with
`dset.squeeze()` (because an axis has length 1), so `self.image` has shape
(2, 2) instead of shape (1, 2) of the mean, and the value at index (0, 1) is the raw
entry 1 instead of the spectral mean 1/2. -/
theorem C4_counterexample :
    (navImage [1, 2, 2] specProbeData 2).1 ≠ (meanSpectralImage [1, 2, 2] specProbeData 2).1 ∧
    (navImage [1, 2, 2] specProbeData 2).2 [0, 1]
      ≠ (meanSpectralImage [1, 2, 2] specProbeData 2).2 [0, 1] := by
  constructor
  · decide
  · norm_num [navImage, meanSpectralImage, meanAxisData, squeezeShape, unsqueezeIdx,
      specProbeData, Finset.sum_range_succ]

/-- Claim C4 amended: the navigation image computed at construction equals the
mean of the full array over the spectral axis whenever no axis of the dataset
has length 1 (when an axis has length 1 it is the squeezed raw array instead),
and it is never recomputed by later click events: any click that returns
leaves `self.image` unchanged. -/
theorem C4_navigation_image (shape : List ℕ) (data : List ℕ → ℚ) (specDim d0 d1 : ℕ) :
    ((1 : ℕ) ∉ shape → navImage shape data specDim = meanSpectralImage shape data specDim) ∧
    (∀ (inax : Bool) (xd yd : ℚ) (st st2 : SpecViz),
      onclick shape d0 d1 inax xd yd st = some st2 → st2.image = st.image) := by
  constructor
  · intro h
    unfold navImage
    rw [if_neg h]
  · intro inax xd yd st st2 hEq
    unfold onclick at hEq
    dsimp only at hEq
    split_ifs at hEq
    all_goals
      first
        | exact Option.noConfusion hEq
        | (injection hEq with h2; subst h2; rfl)

theorem C4_navigation_image_witness :
    navImage [2, 2, 2] specProbeData 2 = meanSpectralImage [2, 2, 2] specProbeData 2 :=
  (C4_navigation_image [2, 2, 2] specProbeData 2 0 1).1 (by decide)


theorem specClamp_x_bound_add (s0 s1 : ℤ) (st : SpecViz) :
    (specClamp s0 s1 st).x + (specClamp s0 s1 st).bin_x ≤ s0 := by
  have h := specClamp_x_bound s0 s1 st
  rw [specClamp_bin_x]
  omega

theorem specClamp_y_bound_add (s0 s1 : ℤ) (st : SpecViz) :
    (specClamp s0 s1 st).y + (specClamp s0 s1 st).bin_y ≤ s1 := by
  have h := specClamp_y_bound s0 s1 st
  rw [specClamp_bin_y]
  omega

theorem set_bin_core_invariant (s0 s1 u0 u1 bx0 by0 : ℤ) (st st2 : SpecViz)
    (hb0 : 1 ≤ bx0) (hb1 : 1 ≤ by0) (hs0 : 1 ≤ s0) (hs1 : 1 ≤ s1)
    (hEq : set_bin_core s0 s1 u0 u1 bx0 by0 st = some st2) :
    stateInvariant s0 s1 st2 := by
  unfold set_bin_core at hEq
  dsimp only at hEq
  by_cases h1 : st.bin_x = 0 ∨ st.bin_y = 0
  · rw [if_pos h1] at hEq
    exact Option.noConfusion hEq
  · rw [if_neg h1] at hEq
    by_cases h2 : (if s0 < bx0 then s0 else bx0) = 0 ∨ (if s1 < by0 then s1 else by0) = 0
    · rw [if_pos h2] at hEq
      exact Option.noConfusion hEq
    · rw [if_neg h2] at hEq
      injection hEq with h3
      subst h3
      refine ⟨?_, ?_, ?_, ?_⟩
      · show 1 ≤ (if s0 < bx0 then s0 else bx0)
        split_ifs <;> omega
      · show 1 ≤ (if s1 < by0 then s1 else by0)
        split_ifs <;> omega
      · exact specClamp_x_bound_add _ _ _
      · exact specClamp_y_bound_add _ _ _

/-- Claim C2 fails on the code: on a valid spectral-image dataset of shape
(4, 5, 6) with navigation axes 0 and 1, the handler `set_bin(-2)` returns
normally with `bin_x = -2`, violating the invariant `bin_x ≥ 1`. -/
theorem C2_counterexample :
    (set_bin [4, 5, 6] 0 1 (BinInput.scalar (-2 : ℚ)) initSpec).map SpecViz.bin_x
      = some (-2) ∧ ¬ (1 ≤ (-2 : ℤ)) := by
  constructor
  · decide
  · decide

/-- Claim C2 amended: on every dataset and every choice of navigation axes of
length at least 1, starting from a state whose bins are at least 1, the
invariant `bin_x ≥ 1 ∧ bin_y ≥ 1 ∧ x + bin_x ≤ axis0 ∧ y + bin_y ≤ axis1`
holds after `set_bin` returns with an integer scalar or pair at least 1, and
after every click that returns; bin arguments below 1 are adopted unclamped
and break the invariant. -/
theorem C2_invariant (shape : List ℕ) (d0 d1 : ℕ) (st : SpecViz)
    (hbx : 1 ≤ st.bin_x) (hby : 1 ≤ st.bin_y)
    (hs0 : 1 ≤ axSize shape d0) (hs1 : 1 ≤ axSize shape d1) :
    (∀ k : ℤ, 1 ≤ k → ∀ st2,
        set_bin shape d0 d1 (BinInput.scalar (k : ℚ)) st = some st2 →
        stateInvariant (axSize shape d0) (axSize shape d1) st2) ∧
    (∀ a b : ℤ, 1 ≤ a → 1 ≤ b → ∀ st2,
        set_bin shape d0 d1 (BinInput.list2 (a : ℚ) (b : ℚ)) st = some st2 →
        stateInvariant (axSize shape d0) (axSize shape d1) st2) ∧
    (∀ (inax : Bool) (xd yd : ℚ) (st2 : SpecViz),
        onclick shape d0 d1 inax xd yd st = some st2 →
        stateInvariant (axSize shape d0) (axSize shape d1) st2) := by
  refine ⟨?_, ?_, ?_⟩
  · intro k hk st2 hEq
    unfold set_bin at hEq
    dsimp only at hEq
    rw [pyInt_intCast] at hEq
    exact set_bin_core_invariant _ _ _ _ _ _ _ _ hk hk hs0 hs1 hEq
  · intro a b ha hb st2 hEq
    unfold set_bin at hEq
    dsimp only at hEq
    rw [pyInt_intCast, pyInt_intCast] at hEq
    exact set_bin_core_invariant _ _ _ _ _ _ _ _ ha hb hs0 hs1 hEq
  · intro inax xd yd st2 hEq
    unfold onclick at hEq
    dsimp only at hEq
    split_ifs at hEq
    all_goals
      first
        | exact Option.noConfusion hEq
        | (injection hEq with h3; subst h3;
           exact ⟨hbx, hby, specClamp_x_bound_add _ _ _, specClamp_y_bound_add _ _ _⟩)

theorem C2_invariant_witness :
    stateInvariant (axSize [4, 5, 6] 0) (axSize [4, 5, 6] 1) initSpec :=
  (C2_invariant [4, 5, 6] 0 1 initSpec (by decide) (by decide) (by decide)
      (by decide)).2.2 false 0 0 initSpec rfl

/-- Claim C6 fails on the code: `set_bin(0)` — an integer scalar — raises
`ZeroDivisionError` at the `rect.set_xy` division by `self.bin_x`, and a pair
passed as a tuple raises `TypeError` at `int(bin_xy)`; neither is clamped or
ignored. -/
theorem C6_counterexample :
    (set_bin [4, 5, 6] 0 1 (BinInput.scalar 0) initSpec).isNone = true ∧
    (set_bin [4, 5, 6] 0 1 (BinInput.tuple2 2 2) initSpec).isNone = true := by
  constructor
  · decide
  · decide

theorem set_bin_core_isSome (s0 s1 u0 u1 bx0 by0 : ℤ) (st : SpecViz)
    (hbx : st.bin_x ≠ 0) (hby : st.bin_y ≠ 0)
    (hb0 : 1 ≤ bx0) (hb1 : 1 ≤ by0) (hs0 : 1 ≤ s0) (hs1 : 1 ≤ s1) :
    (set_bin_core s0 s1 u0 u1 bx0 by0 st).isSome = true := by
  unfold set_bin_core
  dsimp only
  rw [if_neg (by push_neg; exact ⟨hbx, hby⟩)]
  rw [if_neg (by push_neg; constructor <;> (split_ifs <;> omega))]
  rfl

/-- Claim C6 amended: scroll steps always land in `[0, stack_length)`, clicks
complete without error whenever the current bins and rectangle dimensions are
nonzero, and `set_bin` completes without error for every integer scalar or
two-element-list argument at least 1 on axes of length at least 1; but a bin
argument of 0 raises `ZeroDivisionError`, and a tuple pair or a one-element
list raises `TypeError` / `IndexError`. -/
theorem C6_no_raise (shape : List ℕ) (d0 d1 : ℕ) (st : SpecViz)
    (hbx : st.bin_x ≠ 0) (hby : st.bin_y ≠ 0)
    (hrw : st.rectW ≠ 0) (hrh : st.rectH ≠ 0)
    (hs0 : 1 ≤ axSize shape d0) (hs1 : 1 ≤ axSize shape d1) :
    (∀ k : ℤ, 1 ≤ k →
        (set_bin shape d0 d1 (BinInput.scalar (k : ℚ)) st).isSome = true) ∧
    (∀ a b : ℤ, 1 ≤ a → 1 ≤ b →
        (set_bin shape d0 d1 (BinInput.list2 (a : ℚ) (b : ℚ)) st).isSome = true) ∧
    (∀ (inax : Bool) (xd yd : ℚ),
        (onclick shape d0 d1 inax xd yd st).isSome = true) ∧
    (∀ (m v : ℤ) (up : Bool), 0 < m →
        0 ≤ onscroll m up v ∧ onscroll m up v < m) := by
  refine ⟨?_, ?_, ?_, ?_⟩
  · intro k hk
    unfold set_bin
    dsimp only
    rw [pyInt_intCast]
    exact set_bin_core_isSome _ _ _ _ _ _ _ hbx hby hk hk hs0 hs1
  · intro a b ha hb
    unfold set_bin
    dsimp only
    rw [pyInt_intCast, pyInt_intCast]
    exact set_bin_core_isSome _ _ _ _ _ _ _ hbx hby ha hb hs0 hs1
  · intro inax xd yd
    unfold onclick
    dsimp only
    cases inax
    · rfl
    · rw [if_pos rfl]
      split_ifs with h1 h2 h3
      all_goals
        first
          | rfl
          | exact absurd h3 (by push_neg; exact ⟨hbx, hrw, hby, hrh⟩)
  · intro m v up hm
    cases up <;>
      exact ⟨Int.emod_nonneg _ (by omega), Int.emod_lt_of_pos _ hm⟩

theorem C6_no_raise_witness :
    (set_bin [4, 5, 6] 0 1 (BinInput.scalar ((2 : ℤ) : ℚ)) initSpec).isSome = true :=
  (C6_no_raise [4, 5, 6] 0 1 initSpec (by decide) (by decide) (by decide)
      (by decide) (by decide) (by decide)).1 2 (by decide)

/-- Claim C10: in a state whose rectangle patch tracks the bins
(`rect.get_width() = bin_x`, `rect.get_height() = bin_y`, the construction
invariant) and whose cursor is in range, every click whose rectangle-relative
coordinates both lie in `[0, extent]` — the far boundary included on either
coordinate — is treated as a valid click: the cursor is assigned the mapped
cell and then clamped back into range.  In particular a click with
`int(xdata) = size_x` (mapped x equal to the x-extent) ends with
`x = size_x - bin_x`, and a click with `int(ydata) = size_y` (mapped y equal
to the y-extent, x strictly interior allowed) ends with
`y = size_y - bin_y`; while a click strictly negative or strictly beyond the
extent on either coordinate leaves the state unchanged. -/
theorem C10_boundary_click (shape : List ℕ) (d0 d1 : ℕ) (st : SpecViz) (xd yd : ℚ)
    (hrw : st.rectW = (st.bin_x : ℚ)) (hrh : st.rectH = (st.bin_y : ℚ))
    (hbx1 : 1 ≤ st.bin_x) (hby1 : 1 ≤ st.bin_y)
    (hx0 : 0 ≤ st.x) (hy0 : 0 ≤ st.y)
    (hx : st.x ≤ axSize shape d0 - st.bin_x) (hy : st.y ≤ axSize shape d1 - st.bin_y) :
    (0 ≤ pyInt xd → pyInt xd ≤ axSize shape d0 →
     0 ≤ pyInt yd → pyInt yd ≤ axSize shape d1 →
      (onclick shape d0 d1 true xd yd st).map (fun s2 => (s2.x, s2.y)) =
        some
          (if axSize shape d0 < pyInt xd + st.bin_x then axSize shape d0 - st.bin_x
           else pyInt xd,
           if axSize shape d1 < pyInt yd + st.bin_y then axSize shape d1 - st.bin_y
           else pyInt yd)) ∧
    (pyInt xd = axSize shape d0 → 0 ≤ pyInt yd → pyInt yd ≤ axSize shape d1 →
      (onclick shape d0 d1 true xd yd st).map (fun s2 => (s2.x, s2.y)) =
        some (axSize shape d0 - st.bin_x,
          if axSize shape d1 < pyInt yd + st.bin_y then axSize shape d1 - st.bin_y
          else pyInt yd)) ∧
    (pyInt yd = axSize shape d1 → 0 ≤ pyInt xd → pyInt xd ≤ axSize shape d0 →
      (onclick shape d0 d1 true xd yd st).map (fun s2 => (s2.x, s2.y)) =
        some
          (if axSize shape d0 < pyInt xd + st.bin_x then axSize shape d0 - st.bin_x
           else pyInt xd,
           axSize shape d1 - st.bin_y)) ∧
    ((pyInt xd < 0 ∨ axSize shape d0 < pyInt xd ∨
        pyInt yd < 0 ∨ axSize shape d1 < pyInt yd) →
      onclick shape d0 d1 true xd yd st = some st) := by
  have main : 0 ≤ pyInt xd → pyInt xd ≤ axSize shape d0 →
      0 ≤ pyInt yd → pyInt yd ≤ axSize shape d1 →
      (onclick shape d0 d1 true xd yd st).map (fun s2 => (s2.x, s2.y)) =
        some
          (if axSize shape d0 < pyInt xd + st.bin_x then axSize shape d0 - st.bin_x
           else pyInt xd,
           if axSize shape d1 < pyInt yd + st.bin_y then axSize shape d1 - st.bin_y
           else pyInt yd) := by
    intro hx1 hx2 hy1 hy2
    unfold onclick
    dsimp only
    rw [if_pos rfl]
    rw [if_pos (show 0 ≤ pyInt xd ∧ 0 ≤ pyInt yd from ⟨hx1, hy1⟩)]
    rw [if_pos (show pyInt xd ≤ axSize shape d0 ∧ pyInt yd ≤ axSize shape d1 from
      ⟨hx2, hy2⟩)]
    have hbxq : (st.bin_x : ℚ) ≠ 0 := Int.cast_ne_zero.mpr (by omega)
    have hbyq : (st.bin_y : ℚ) ≠ 0 := Int.cast_ne_zero.mpr (by omega)
    rw [if_neg (by
      push_neg
      exact ⟨by omega, by rw [hrw]; exact hbxq, by omega, by rw [hrh]; exact hbyq⟩)]
    have hww : st.rectW / (st.bin_x : ℚ) = 1 := by rw [hrw]; exact div_self hbxq
    have hhh : st.rectH / (st.bin_y : ℚ) = 1 := by rw [hrh]; exact div_self hbyq
    rw [hww, hhh, div_one, div_one, pyInt_intCast, pyInt_intCast]
    unfold specClamp
    dsimp only
    split_ifs
    all_goals first | rfl | omega
  refine ⟨main, ?_, ?_, ?_⟩
  · intro h1 h2 h3
    have step := main (by omega) (le_of_eq h1) h2 h3
    rw [step, h1, if_pos (show axSize shape d0 < axSize shape d0 + st.bin_x by omega)]
  · intro h1 h2 h3
    have step := main h2 h3 (by omega) (le_of_eq h1)
    rw [step, h1, if_pos (show axSize shape d1 < axSize shape d1 + st.bin_y by omega)]
  · intro h
    unfold onclick
    dsimp only
    rw [if_pos rfl]
    by_cases hc1 : 0 ≤ pyInt xd ∧ 0 ≤ pyInt yd
    · rw [if_pos hc1]
      rw [if_neg (show ¬ (pyInt xd ≤ axSize shape d0 ∧ pyInt yd ≤ axSize shape d1) by
        omega)]
      rw [specClamp_eq_self _ _ _ hx hy]
    · rw [if_neg hc1]
      rw [specClamp_eq_self _ _ _ hx hy]

theorem C10_boundary_click_witness :
    (onclick [4, 5, 6] 0 1 true 2 5 initSpec).map (fun s2 => (s2.x, s2.y)) =
      some
        (if axSize [4, 5, 6] 0 < pyInt 2 + initSpec.bin_x
         then axSize [4, 5, 6] 0 - initSpec.bin_x else pyInt 2,
         axSize [4, 5, 6] 1 - initSpec.bin_y) :=
  (C10_boundary_click [4, 5, 6] 0 1 initSpec 2 5 (by decide) (by decide) (by decide)
      (by decide) (by decide) (by decide) (by decide) (by decide)).2.2.1
    (by decide) (by decide) (by decide)
